import Mathlib

/-!
# pgsql/pc_inout.c : input/output functions for points and patches

A shallow embedding of the SQL-callable functions of `src/pgsql/pc_inout.c`.

* C strings are `List Char` (the characters before the terminating NUL).
* `uint32` / `int32` values are `Nat` / `Int`; the conversions between them are explicit.
* `ereport(ERROR, ...)` / `elog(ERROR, ...)` leave the function at once: every function
  returns `Except PgError _`, one constructor of `PgError` per message of the file.
* The library routines the file calls but does not define (hex codec, serializer, schema
  cache, attribute-name parser) are fields of `Codec` and `Binder`.
-/

namespace PcInout

/-! ## Machine integers -/

/-- Conversion of a C integer to `uint32` (reduction modulo 2^32). -/
def to_uint32 (x : Int) : Nat := (x % 4294967296).toNat

/-- Conversion of a `uint32` bit pattern to `int32` (two's complement). -/
def to_int32 (x : Nat) : Int :=
  if x % 4294967296 < 2147483648 then (x % 4294967296 : Nat) else (x % 4294967296 : Nat) - 4294967296

/-! ## Errors raised by the file -/

/-- Errors of `pc_inout.c`, one per `ereport`/`elog(ERROR)` message, plus the errors raised
inside the collaborators (`external`) and by the host routine `pg_atoi`. -/
inductive PgError where
  /-- Message: point/patch pcid (%u) does not match column pcid (%d) -/
  | pcid_mismatch (pcid column_pcid : Nat)
  /-- Message: pcpoint parse error - empty string -/
  | pcpoint_empty_string
  /-- Message: pcpatch parse error - empty string -/
  | pcpatch_empty_string
  /-- Message: parse error - support for text format not yet implemented -/
  | text_format_not_implemented
  /-- Message: unable to load schema for pcid = %d -/
  | unable_to_load_schema (pcid : Nat)
  /-- Message: array must be of float8[] -/
  | array_not_float8
  /-- Message: float8[] must have only one dimension -/
  | array_not_one_dimension
  /-- Message: float8[] must not have null elements -/
  | array_has_nulls
  /-- Message: array dimensions do not match schema dimensions of pcid = %d -/
  | array_dims_mismatch (pcid : Nat)
  /-- Message: pcpoint_from_record: dimension %.*s not found in %s -/
  | dimension_not_found (name attname : List Char)
  /-- Message: pcpoint_from_record: Incorrect Oid for %.*s in %s (%d!=%d) -/
  | incorrect_oid (name attname : List Char) (oid atttypid : Nat)
  /-- Message: typmod array must be type cstring[] -/
  | typmod_not_cstring
  /-- Message: typmod array must be one-dimensional -/
  | typmod_not_one_dimensional
  /-- Message: typmod array must not contain nulls -/
  | typmod_has_nulls
  /-- Message: typmod array must have one element -/
  | typmod_not_one_element
  /-- Message: column pcid (%d) and patch pcid (%d) are not consistent -/
  | patch_not_consistent (pcid arg_pcid : Nat)
  /-- Message: column pcid (%d) and point pcid (%d) are not consistent -/
  | point_not_consistent (pcid arg_pcid : Nat)
  /-- Message of pg_atoi: invalid input syntax for integer -/
  | atoi_invalid_input
  /-- Message of pg_atoi: value is out of range for type integer -/
  | atoi_out_of_range
  /-- An error raised inside a collaborator (codec, parser), tagged with a code. -/
  | external (code : Nat)
  deriving DecidableEq, Repr

/-- Equality of outcomes is decidable, so that concrete runs can be evaluated. -/
instance instDecidableEqExcept {ε α : Type} [DecidableEq ε] [DecidableEq α] :
    DecidableEq (Except ε α)
  | .ok a, .ok b => if h : a = b then isTrue (by rw [h]) else isFalse (by intro h2; cases h2; exact h rfl)
  | .error a, .error b =>
    if h : a = b then isTrue (by rw [h]) else isFalse (by intro h2; cases h2; exact h rfl)
  | .ok _, .error _ => isFalse (by intro h; cases h)
  | .error _, .ok _ => isFalse (by intro h; cases h)

/-! ## Data model (declarations of pc_api.h / pc_pgsql.h, as far as this file reads them) -/

/-- Modelled from the spec: PCDIMENSION of pc_api.h (not under src/). Only the fields read by
pc_inout.c are kept: name, interpretation, byteoffset, size. -/
structure PCDIMENSION where
  name : List Char
  interpretation : Nat
  byteoffset : Nat
  size : Nat
  deriving DecidableEq, Repr

/-- Modelled from the spec: PCSCHEMA of pc_api.h (not under src/): schema id, number of
dimensions, the dimensions in declaration order, byte width of one point. -/
structure PCSCHEMA where
  pcid : Nat
  ndims : Nat
  size : Nat
  dims : List PCDIMENSION
  deriving DecidableEq, Repr

/-- Modelled from the spec: PCPOINT of pc_api.h (not under src/): a schema and a byte buffer. -/
structure PCPOINT where
  schema : PCSCHEMA
  data : List Nat
  deriving DecidableEq, Repr

/-- Modelled from the spec: PCPATCH of pc_api.h (not under src/): a schema and the points. -/
structure PCPATCH where
  schema : PCSCHEMA
  points : List (List Nat)
  deriving DecidableEq, Repr

/-- Modelled from the spec: SERIALIZED_POINT of pc_pgsql.h (not under src/): the wire form,
a schema id and the raw bytes. -/
structure SERIALIZED_POINT where
  pcid : Nat
  data : List Nat
  deriving DecidableEq, Repr

/-- Modelled from the spec: SERIALIZED_PATCH of pc_pgsql.h (not under src/): the wire form,
a schema id and the raw bytes. -/
structure SERIALIZED_PATCH where
  pcid : Nat
  data : List Nat
  deriving DecidableEq, Repr

/-- Modelled from the spec: pcid_from_typmod of pc_pgsql.h/pc_pgsql.c (not under src/).
"decode extracts that integer as the schema identifier; 0 means unconstrained": the tag,
read as an unsigned 32-bit value, is the schema id. -/
def pcid_from_typmod (typmod : Int) : Nat := to_uint32 typmod

/-! ## pcid_consistent (lines 38-48) -/

/-- Source: `pcid_consistent`.
`if ( column_pcid && pcid != column_pcid ) ereport(ERROR, ...)`. -/
def pcid_consistent (pcid column_pcid : Nat) : Except PgError Unit :=
  if column_pcid ≠ 0 ∧ pcid ≠ column_pcid then
    .error (.pcid_mismatch pcid column_pcid)
  else
    .ok ()

/-! ## Typmod enforcement (lines 589-619) -/

/-- Source: `pcpatch_enforce_typmod`. `typmod` is declared `uint32` there, so the `int32`
argument is converted before it reaches `pcid_from_typmod`. -/
def pcpatch_enforce_typmod (arg : SERIALIZED_PATCH) (typmod_arg : Int) :
    Except PgError SERIALIZED_PATCH :=
  let typmod : Nat := to_uint32 typmod_arg
  let pcid : Nat := pcid_from_typmod (to_int32 typmod)
  if pcid ≠ arg.pcid then
    .error (.patch_not_consistent pcid arg.pcid)
  else
    .ok arg

/-- Source: `pcpoint_enforce_typmod`. -/
def pcpoint_enforce_typmod (arg : SERIALIZED_POINT) (typmod_arg : Int) :
    Except PgError SERIALIZED_POINT :=
  let typmod : Int := typmod_arg
  let pcid : Nat := pcid_from_typmod typmod
  if pcid ≠ arg.pcid then
    .error (.point_not_consistent pcid arg.pcid)
  else
    .ok arg

/-! ## Host types and constants -/

/-- A `float8` value, kept as its 64-bit pattern; the embedding never looks inside. -/
structure float8 where
  bits : Nat
  deriving DecidableEq, Repr

/-- A host `Datum`, kept as the bytes of its memory image (eight of them). -/
abbrev Datum := List Nat

/-- Host constant (pg_type.h): type oid of float8. -/
def FLOAT8OID : Nat := 701

/-- Host constant (pg_type.h): type oid of int4. -/
def INT4OID : Nat := 23

/-- Host constant (pg_type.h): type oid of cstring. -/
def CSTRINGOID : Nat := 2275

/-- A host array, as far as the `ARR_*` accessors used by this file show it:
`ARR_ELEMTYPE`, `ARR_NDIM`, `ARR_HASNULL`, `ARR_DIMS`, `ARR_LBOUND`, and the elements. -/
structure ArrayType (α : Type) where
  elemtype : Nat
  ndim : Int
  hasnull : Bool
  dims : List Int
  lbound : List Int
  data : List α
  deriving DecidableEq, Repr

/-- One attribute of a record argument: `attr->attname`, `attr->atttypid`, and the value that
`heap_getattr(&tmptup, attr->attnum, tupDesc, &isNull)` returns for it (`none` when isNull). -/
structure RecordField where
  attname : List Char
  atttypid : Nat
  value : Option Datum
  deriving DecidableEq, Repr

/-- Modelled from the spec: the aggregate marker of a parsed attribute name (the enum of
pc_pgsql.h is not under src/): none, min, max, avg. -/
inductive PC_FUN where
  | PC_FUN_NONE
  | PC_FUN_MIN
  | PC_FUN_MAX
  | PC_FUN_AVG
  deriving DecidableEq, Repr

/-- Modelled from the spec: parsed_attname of pc_pgsql.h (not under src/), with the fields
pc_inout.c reads: `attname` (pointer into the name), `nattname` (length of the dimension
name), `raw`, and `fun` (here `func`). -/
structure parsed_attname where
  attname : List Char
  nattname : Nat
  raw : Bool
  func : PC_FUN
  deriving DecidableEq, Repr

/-! ## Collaborators of the in/out functions -/

/-- The library routines called by the in/out functions and not defined in pc_inout.c.
`pc_schema_from_pcid` is the schema cache (`none` is the NULL pointer); the hex decoders
receive the string and `strlen(str)` and resolve the schema themselves (through `fcinfo`);
the deserializers receive the possibly-NULL schema pointer. Any of them may raise. -/
structure Codec where
  pc_schema_from_pcid : Nat → Option PCSCHEMA
  pc_point_from_hexwkb : List Char → Nat → Except PgError PCPOINT
  pc_point_serialize : PCPOINT → SERIALIZED_POINT
  pc_point_deserialize : SERIALIZED_POINT → Option PCSCHEMA → Except PgError PCPOINT
  pc_point_to_hexwkb : PCPOINT → List Char
  pc_point_from_double_array : PCSCHEMA → List float8 → Nat → PCPOINT
  pc_patch_from_hexwkb : List Char → Nat → Except PgError PCPATCH
  pc_patch_serialize : PCPATCH → SERIALIZED_PATCH
  pc_patch_deserialize : SERIALIZED_PATCH → Option PCSCHEMA → Except PgError PCPATCH
  pc_patch_to_hexwkb : PCPATCH → List Char

/-- One call from pc_inout.c into a collaborator, with the arguments that identify it. -/
inductive Call where
  | pc_schema_from_pcid (pcid : Nat)
  | pc_point_from_hexwkb (hex : List Char) (hexlen : Nat)
  | pc_point_serialize (pt : PCPOINT)
  | pc_point_deserialize (serpt : SERIALIZED_POINT)
  | pc_point_to_hexwkb (pt : PCPOINT)
  | pc_patch_from_hexwkb (hex : List Char) (hexlen : Nat)
  | pc_patch_serialize (patch : PCPATCH)
  | pc_patch_deserialize (serpatch : SERIALIZED_PATCH)
  | pc_patch_to_hexwkb (patch : PCPATCH)
  deriving DecidableEq, Repr

/-- The outcome of one SQL call: the collaborator calls made, in order, and the value
returned or the error raised. -/
structure Run (α : Type) where
  calls : List Call
  result : Except PgError α
  deriving DecidableEq

/-- The column pcid seen by an input function: the decoded typmod when argument 2 is given and
not NULL, otherwise 0 (`uint32 pcid = 0`). -/
def column_pcid (typmod_arg : Option Int) : Nat :=
  match typmod_arg with
  | some typmod => pcid_from_typmod typmod
  | none => 0

/-- Whether a call is a hex decode or a schema resolution. -/
def Call.decodes_or_resolves : Call → Bool
  | .pc_schema_from_pcid _ => true
  | .pc_point_from_hexwkb _ _ => true
  | .pc_patch_from_hexwkb _ _ => true
  | _ => false

/-! ## pcpoint_in / pcpoint_out / pcpatch_in / pcpatch_out (lines 51-161) -/

/-- Source: `pcpoint_in`. `typmod_arg` is `none` when `PG_NARGS() <= 2` or argument 2 is
NULL. The result `some serpt` is `PG_RETURN_POINTER(serpt)`; `none` is `PG_RETURN_NULL()`. -/
def pcpoint_in (cdc : Codec) (str : List Char) (typmod_arg : Option Int) :
    Run (Option SERIALIZED_POINT) :=
  let pcid : Nat :=
    match typmod_arg with
    | some typmod => pcid_from_typmod typmod
    | none => 0
  match str with
  | [] => ⟨[], .error .pcpoint_empty_string⟩
  | c :: _ =>
    if c = '0' then
      match cdc.pc_point_from_hexwkb str str.length with
      | .error e => ⟨[.pc_point_from_hexwkb str str.length], .error e⟩
      | .ok pt =>
        match pcid_consistent pt.schema.pcid pcid with
        | .error e => ⟨[.pc_point_from_hexwkb str str.length], .error e⟩
        | .ok _ =>
          ⟨[.pc_point_from_hexwkb str str.length, .pc_point_serialize pt],
            .ok (some (cdc.pc_point_serialize pt))⟩
    else
      ⟨[], .error .text_format_not_implemented⟩

/-- Source: `pcpoint_out`. -/
def pcpoint_out (cdc : Codec) (serpt : SERIALIZED_POINT) : Run (List Char) :=
  let schema := cdc.pc_schema_from_pcid serpt.pcid
  match cdc.pc_point_deserialize serpt schema with
  | .error e => ⟨[.pc_schema_from_pcid serpt.pcid, .pc_point_deserialize serpt], .error e⟩
  | .ok pcpt =>
    ⟨[.pc_schema_from_pcid serpt.pcid, .pc_point_deserialize serpt, .pc_point_to_hexwkb pcpt],
      .ok (cdc.pc_point_to_hexwkb pcpt)⟩

/-- Source: `pcpatch_in`. `typmod` is declared `uint32` there, so the `int32` argument is
converted before it reaches `pcid_from_typmod`. -/
def pcpatch_in (cdc : Codec) (str : List Char) (typmod_arg : Option Int) :
    Run (Option SERIALIZED_PATCH) :=
  let pcid : Nat :=
    match typmod_arg with
    | some a => let typmod : Nat := to_uint32 a; pcid_from_typmod (to_int32 typmod)
    | none => 0
  match str with
  | [] => ⟨[], .error .pcpatch_empty_string⟩
  | c :: _ =>
    if c = '0' then
      match cdc.pc_patch_from_hexwkb str str.length with
      | .error e => ⟨[.pc_patch_from_hexwkb str str.length], .error e⟩
      | .ok patch =>
        match pcid_consistent patch.schema.pcid pcid with
        | .error e => ⟨[.pc_patch_from_hexwkb str str.length], .error e⟩
        | .ok _ =>
          ⟨[.pc_patch_from_hexwkb str str.length, .pc_patch_serialize patch],
            .ok (some (cdc.pc_patch_serialize patch))⟩
    else
      ⟨[], .error .text_format_not_implemented⟩

/-- Source: `pcpatch_out`. -/
def pcpatch_out (cdc : Codec) (serpatch : SERIALIZED_PATCH) : Run (List Char) :=
  let schema := cdc.pc_schema_from_pcid serpatch.pcid
  match cdc.pc_patch_deserialize serpatch schema with
  | .error e => ⟨[.pc_schema_from_pcid serpatch.pcid, .pc_patch_deserialize serpatch], .error e⟩
  | .ok patch =>
    ⟨[.pc_schema_from_pcid serpatch.pcid, .pc_patch_deserialize serpatch,
        .pc_patch_to_hexwkb patch],
      .ok (cdc.pc_patch_to_hexwkb patch)⟩

/-! ## pcpoint_from_double_array (lines 200-233) -/

/-- Source: `pcpoint_from_double_array`. `nelems` is an `int` compared with the unsigned
`schema->ndims`, hence the conversion. -/
def pcpoint_from_double_array (cdc : Codec) (pcid_arg : Int) (arrptr : ArrayType float8) :
    Except PgError SERIALIZED_POINT :=
  let pcid : Nat := to_uint32 pcid_arg
  match cdc.pc_schema_from_pcid pcid with
  | none => .error (.unable_to_load_schema pcid)
  | some schema =>
    if arrptr.elemtype ≠ FLOAT8OID then .error .array_not_float8
    else if arrptr.ndim ≠ 1 then .error .array_not_one_dimension
    else if arrptr.hasnull then .error .array_has_nulls
    else
      let nelems : Int := arrptr.dims.getD 0 0
      if to_uint32 nelems ≠ schema.ndims ∨ arrptr.lbound.getD 0 0 > 1 then
        .error (.array_dims_mismatch pcid)
      else
        let vals := arrptr.data
        let pt := cdc.pc_point_from_double_array schema vals (to_uint32 nelems)
        .ok (cdc.pc_point_serialize pt)

/-! ## pcpoint_from_record (lines 355-425) -/

/-- The library and host routines called by `pcpoint_from_record` and not defined in
pc_inout.c. The parser may raise; the lookup returns NULL (`none`) for an unknown name;
`pc_point_set_double` returns the point it has written to. -/
structure Binder where
  pcparse_attname : List Char → Except PgError parsed_attname
  pc_schema_get_dimension_by_name : PCSCHEMA → List Char → Option PCDIMENSION
  pc_interpretation_oid : Nat → Nat
  pc_point_make : PCSCHEMA → PCPOINT
  pc_point_set_double : PCPOINT → PCDIMENSION → float8 → PCPOINT
  DatumGetFloat8 : Datum → float8

/-- The call `memcpy(dst + off, src, n)`: bytes `off .. off+n-1` of `dst` are replaced by the
first `n` bytes of `src`. -/
def memcpy (dst : List Nat) (off : Nat) (src : List Nat) (n : Nat) : List Nat :=
  dst.take off ++ src.take n ++ dst.drop (off + n)

/-- Source: body of the `while (i--)` loop of `pcpoint_from_record`, for one attribute. -/
def from_record_attr (bnd : Binder) (schema : PCSCHEMA) (attr : RecordField) (pt : PCPOINT) :
    Except PgError PCPOINT :=
  match bnd.pcparse_attname attr.attname with
  | .error e => .error e
  | .ok parsed =>
    if parsed.func ≠ .PC_FUN_NONE then .ok pt
    else
      let name := parsed.attname.take parsed.nattname
      match bnd.pc_schema_get_dimension_by_name schema name with
      | none => .error (.dimension_not_found name attr.attname)
      | some dim =>
        let oid : Nat :=
          if parsed.raw then bnd.pc_interpretation_oid dim.interpretation else FLOAT8OID
        let pt1 : PCPOINT :=
          match attr.value with
          | none => pt
          | some datum =>
            if parsed.raw then
              { pt with data := memcpy pt.data dim.byteoffset datum dim.size }
            else
              bnd.pc_point_set_double pt dim (bnd.DatumGetFloat8 datum)
        if oid ≠ attr.atttypid then
          .error (.incorrect_oid name attr.attname oid attr.atttypid)
        else
          .ok pt1

/-- Source: the loop `i = tupDesc->natts; while (i--) { attr = tupDesc->attrs[i]; ... }`,
given the attributes still to visit in visiting order (last attribute first). -/
def from_record_loop (bnd : Binder) (schema : PCSCHEMA) :
    List RecordField → PCPOINT → Except PgError PCPOINT
  | [], pt => .ok pt
  | attr :: rest, pt =>
    match from_record_attr bnd schema attr pt with
    | .error e => .error e
    | .ok pt1 => from_record_loop bnd schema rest pt1

/-- Source: `pcpoint_from_record`. The record is the list of its attributes in declaration
order; the loop visits them from the last to the first. -/
def pcpoint_from_record (cdc : Codec) (bnd : Binder) (pcid_arg : Int)
    (tuple : List RecordField) : Except PgError SERIALIZED_POINT :=
  let pcid : Nat := to_uint32 pcid_arg
  match cdc.pc_schema_from_pcid pcid with
  | none => .error (.unable_to_load_schema pcid)
  | some schema =>
    let pt := bnd.pc_point_make schema
    match from_record_loop bnd schema tuple.reverse pt with
    | .error e => .error e
    | .ok pt1 => .ok (cdc.pc_point_serialize pt1)

/-- The type a field is expected to declare: the native type of the dimension when the name
asks for raw, float8 otherwise. -/
def expected_oid (bnd : Binder) (parsed : parsed_attname) (dim : PCDIMENSION) : Nat :=
  if parsed.raw then bnd.pc_interpretation_oid dim.interpretation else FLOAT8OID

/-- A field that cannot make the binder fail: its name parses, and it either carries an
aggregate marker or names a dimension of the schema and declares the expected type. -/
def field_accepted (bnd : Binder) (schema : PCSCHEMA) (attr : RecordField) : Bool :=
  match bnd.pcparse_attname attr.attname with
  | .error _ => false
  | .ok parsed =>
    if parsed.func ≠ .PC_FUN_NONE then true
    else
      match bnd.pc_schema_get_dimension_by_name schema
          (parsed.attname.take parsed.nattname) with
      | none => false
      | some dim => expected_oid bnd parsed dim = attr.atttypid

/-! ## Typmod support (lines 510-586) -/

/-- The C library test `isspace`, in the C locale. -/
def isspace (c : Char) : Bool := c.toNat = 32 ∨ (9 ≤ c.toNat ∧ c.toNat ≤ 13)

/-- The C library test `isdigit`. -/
def isdigit (c : Char) : Bool := 48 ≤ c.toNat ∧ c.toNat ≤ 57

/-- Value of a run of decimal digits. -/
def digits_value (ds : List Char) : Nat :=
  ds.foldl (fun acc c => acc * 10 + (c.toNat - 48)) 0

/-- The unsigned decimal text of a number, as `%u` prints it. -/
def decimal (n : Nat) : List Char := Nat.toDigits 10 n

/-- Host routine `pg_atoi(s, sizeof(int32), 0)`: `strtol` in base 10 (leading white space, an
optional sign, digits), an error when the string is empty or no digit was read, an error when
the value does not fit an `int32`, and an error when anything but white space follows. -/
def pg_atoi (s : List Char) : Except PgError Int :=
  if s = [] then .error .atoi_invalid_input
  else
    let t := s.dropWhile isspace
    let u := if t.head? = some '-' ∨ t.head? = some '+' then t.tail else t
    let ds := u.takeWhile isdigit
    let badp := u.dropWhile isdigit
    if ds = [] then .error .atoi_invalid_input
    else
      let l : Int := if t.head? = some '-' then -(digits_value ds : Int) else digits_value ds
      if l < -2147483648 ∨ l > 2147483647 then .error .atoi_out_of_range
      else if badp.dropWhile isspace ≠ [] then .error .atoi_invalid_input
      else .ok l

/-- Host routine `ArrayGetNItems(ndim, dims)`: the product of the first `ndim` dimensions,
0 when `ndim <= 0`. -/
def ArrayGetNItems (ndim : Int) (dims : List Int) : Int :=
  if ndim ≤ 0 then 0 else (dims.take ndim.toNat).prod

/-- Source: the loop `for (i = 0; i < n; i++) { if ( i == 0 ) typmod = pg_atoi(...); }` of
`pc_typmod_in`, with `todo` iterations left. -/
def pc_typmod_in_loop (elem_values : List (List Char)) :
    Nat → Nat → Nat → Except PgError Nat
  | _, 0, typmod => .ok typmod
  | i, todo + 1, typmod =>
    if i = 0 then
      match pg_atoi (elem_values.getD i []) with
      | .error e => .error e
      | .ok v => pc_typmod_in_loop elem_values (i + 1) todo (to_uint32 v)
    else
      pc_typmod_in_loop elem_values (i + 1) todo typmod

/-- Source: `pc_typmod_in`. `deconstruct_array` yields the elements and their number `n`;
the `uint32 typmod` is returned through `PG_RETURN_INT32`. -/
def pc_typmod_in (arr : ArrayType (List Char)) : Except PgError Int :=
  if arr.elemtype ≠ CSTRINGOID then .error .typmod_not_cstring
  else if arr.ndim ≠ 1 then .error .typmod_not_one_dimensional
  else if arr.hasnull then .error .typmod_has_nulls
  else if ArrayGetNItems arr.ndim arr.dims > 1 then .error .typmod_not_one_element
  else
    let elem_values := arr.data
    let n : Nat := (ArrayGetNItems arr.ndim arr.dims).toNat
    match pc_typmod_in_loop elem_values 0 n 0 with
    | .error e => .error e
    | .ok typmod => .ok (to_int32 typmod)

/-- The call `sprintf(str, "(%u)", pcid)` into a buffer of `size` bytes: the text written,
or `none` when the text and its terminator do not fit. -/
def sprintf_paren_u (size : Nat) (pcid : Nat) : Option (List Char) :=
  if (['('] ++ decimal pcid ++ [')']).length + 1 ≤ size then
    some (['('] ++ decimal pcid ++ [')'])
  else none

/-- Source: `pc_typmod_out`, with `str = palloc(64)`. `typmod` is declared `uint32`. -/
def pc_typmod_out (typmod_arg : Int) : Option (List Char) :=
  let typmod : Nat := to_uint32 typmod_arg
  let pcid : Nat := pcid_from_typmod (to_int32 typmod)
  if pcid = 0 then some []
  else sprintf_paren_u 64 pcid

/-- Source: `pc_typmod_pcid`. `none` is `PG_RETURN_NULL()`. -/
def pc_typmod_pcid (typmod_arg : Int) : Option Int :=
  let typmod : Nat := to_uint32 typmod_arg
  let pcid : Nat := pcid_from_typmod (to_int32 typmod)
  if pcid = 0 then none
  else some (to_int32 pcid)

/-- The typmod argument list holding the given texts, as the host hands it to `pc_typmod_in`:
a one-dimensional, null-free cstring array with lower bound 1. -/
def typmod_list (elems : List (List Char)) : ArrayType (List Char) :=
  { elemtype := CSTRINGOID, ndim := 1, hasnull := false, dims := [(elems.length : Int)],
    lbound := [1], data := elems }

/-! ## A concrete codec, used to run the functions on concrete inputs -/

/-- The sixteen hexadecimal digits. -/
def hex_digits : List Char :=
  ['0', '1', '2', '3', '4', '5', '6', '7', '8', '9', 'A', 'B', 'C', 'D', 'E', 'F']

/-- Two hex digits of one byte. -/
def hex_of_byte (b : Nat) : List Char :=
  [hex_digits.getD (b / 16 % 16) '0', hex_digits.getD (b % 16) '0']

/-- Hex digits of a byte sequence. -/
def hex_of_bytes : List Nat → List Char
  | [] => []
  | b :: bs => hex_of_byte b ++ hex_of_bytes bs

/-- Value of one hex digit. -/
def hex_value (c : Char) : Option Nat :=
  if hex_digits.indexOf c < 16 then some (hex_digits.indexOf c) else none

/-- Bytes of a hex digit sequence; odd length is error 1, a non-hex digit error 2. -/
def bytes_of_hex : List Char → Except PgError (List Nat)
  | [] => .ok []
  | [_] => .error (.external 1)
  | a :: b :: rest =>
    match hex_value a, hex_value b with
    | some x, some y =>
      match bytes_of_hex rest with
      | .ok bs => .ok ((x * 16 + y) :: bs)
      | .error e => .error e
    | _, _ => .error (.external 2)

/-- Little-endian bytes of a 32-bit value. -/
def le32 (n : Nat) : List Nat :=
  [n % 256, n / 256 % 256, n / 65536 % 256, n / 16777216 % 256]

/-- Pieces of `n` bytes each (`fuel` bounds the number of pieces). -/
def chunks (n : Nat) : Nat → List Nat → List (List Nat)
  | 0, _ => []
  | fuel + 1, bs => if bs = [] then [] else bs.take n :: chunks n fuel (bs.drop n)

/-- A schema with three dimensions x (2 bytes), y (1 byte), z (1 byte), registered as 5. -/
def sample_schema : PCSCHEMA :=
  { pcid := 5, ndims := 3, size := 4,
    dims := [⟨['x'], 3, 0, 2⟩, ⟨['y'], 2, 2, 1⟩, ⟨['z'], 2, 3, 1⟩] }

/-- A registry that knows `sample_schema` only. -/
def sample_schema_from_pcid (pcid : Nat) : Option PCSCHEMA :=
  if pcid = 5 then some sample_schema else none

/-- Little-endian value of a byte sequence. -/
def le_value : List Nat → Nat
  | [] => 0
  | b :: bs => b + 256 * le_value bs

/-- The first `n` little-endian bytes of a value. -/
def le_bytes : Nat → Nat → List Nat
  | 0, _ => []
  | n + 1, v => v % 256 :: le_bytes n (v / 256)

/-- A stand-in for `pc_point_set_double` with scale 1 and offset 0 that reads the bit pattern
as the stored integer: it writes the low-order `size` bytes at the dimension's offset. -/
def sample_set_double (pt : PCPOINT) (dim : PCDIMENSION) (v : float8) : PCPOINT :=
  { pt with data := pt.data.take dim.byteoffset ++ le_bytes dim.size v.bits
      ++ pt.data.drop (dim.byteoffset + dim.size) }

/-- Writes the values into the dimensions, in schema order. -/
def sample_set_all : List PCDIMENSION → List float8 → PCPOINT → PCPOINT
  | dim :: dims, v :: vals, pt => sample_set_all dims vals (sample_set_double pt dim v)
  | _, _, pt => pt

/-- Modelled from the spec: the attribute name parser (pcparse_attname, not under src/),
section 4.4, for the one-level forms `dimname`, `dimname(raw)`, `dimname(min|max|avg)`.
An unmatched parenthesis is error 7, an unknown inner token error 8. -/
def sample_parse_attname (s : List Char) : Except PgError parsed_attname :=
  let name := s.takeWhile (fun c => c ≠ '(')
  match s.dropWhile (fun c => c ≠ '(') with
  | [] => .ok ⟨s, name.length, false, .PC_FUN_NONE⟩
  | _ :: inner =>
    if inner.getLast? ≠ some ')' then .error (.external 7)
    else if inner.dropLast = ['r', 'a', 'w'] then .ok ⟨s, name.length, true, .PC_FUN_NONE⟩
    else if inner.dropLast = ['m', 'i', 'n'] then .ok ⟨s, name.length, false, .PC_FUN_MIN⟩
    else if inner.dropLast = ['m', 'a', 'x'] then .ok ⟨s, name.length, false, .PC_FUN_MAX⟩
    else if inner.dropLast = ['a', 'v', 'g'] then .ok ⟨s, name.length, false, .PC_FUN_AVG⟩
    else .error (.external 8)

/-- A binder environment over the sample codec: dimensions are found by name in declaration
order, a fresh point is zero-filled, interpretations 1-3 are int2, 4-5 int4, 6-8 int8 and the
others float8. -/
def sample_binder : Binder where
  pcparse_attname := sample_parse_attname
  pc_schema_get_dimension_by_name := fun schema name =>
    schema.dims.find? (fun d => d.name = name)
  pc_interpretation_oid := fun i =>
    if i ≤ 3 then 21 else if i ≤ 5 then 23 else if i ≤ 8 then 20 else 701
  pc_point_make := fun schema => ⟨schema, List.replicate schema.size 0⟩
  pc_point_set_double := sample_set_double
  DatumGetFloat8 := fun d => ⟨le_value d⟩

/-- Modelled from the spec: the point and patch codec of the library (pc_pgsql.c and libpc,
not under src/), section 4.2 and 6: `serialize` copies the buffer and tags it with the schema
id; `deserialize` fails when the ids differ (error 3) or the length is not the byte width
(error 4); the hex text is the marker '0', then the little-endian schema id and the raw
bytes, two hex digits per byte. Unknown schema is error 5, a short header error 6. -/
def sample_codec : Codec where
  pc_schema_from_pcid := sample_schema_from_pcid
  pc_point_serialize := fun pt => ⟨pt.schema.pcid, pt.data⟩
  pc_point_deserialize := fun serpt schema =>
    match schema with
    | none => .error (.external 5)
    | some sch =>
      if serpt.pcid ≠ sch.pcid then .error (.external 3)
      else if serpt.data.length ≠ sch.size then .error (.external 4)
      else .ok ⟨sch, serpt.data⟩
  pc_point_to_hexwkb := fun pt => '0' :: hex_of_bytes (le32 pt.schema.pcid ++ pt.data)
  pc_point_from_double_array := fun schema vals _ =>
    sample_set_all schema.dims vals ⟨schema, List.replicate schema.size 0⟩
  pc_point_from_hexwkb := fun hex _ =>
    match hex with
    | '0' :: rest =>
      match bytes_of_hex rest with
      | .ok (b0 :: b1 :: b2 :: b3 :: raw) =>
        match sample_schema_from_pcid (b0 + 256 * b1 + 65536 * b2 + 16777216 * b3) with
        | some sch => if raw.length ≠ sch.size then .error (.external 4) else .ok ⟨sch, raw⟩
        | none => .error (.external 5)
      | .ok _ => .error (.external 6)
      | .error e => .error e
    | _ => .error (.external 6)
  pc_patch_serialize := fun patch => ⟨patch.schema.pcid, patch.points.flatten⟩
  pc_patch_deserialize := fun serpatch schema =>
    match schema with
    | none => .error (.external 5)
    | some sch =>
      if serpatch.pcid ≠ sch.pcid then .error (.external 3)
      else if serpatch.data.length % sch.size ≠ 0 then .error (.external 4)
      else .ok ⟨sch, chunks sch.size serpatch.data.length serpatch.data⟩
  pc_patch_to_hexwkb := fun patch =>
    '0' :: hex_of_bytes (le32 patch.schema.pcid ++ patch.points.flatten)
  pc_patch_from_hexwkb := fun hex _ =>
    match hex with
    | '0' :: rest =>
      match bytes_of_hex rest with
      | .ok (b0 :: b1 :: b2 :: b3 :: raw) =>
        match sample_schema_from_pcid (b0 + 256 * b1 + 65536 * b2 + 16777216 * b3) with
        | some sch =>
          if raw.length % sch.size ≠ 0 then .error (.external 4)
          else .ok ⟨sch, chunks sch.size raw.length raw⟩
        | none => .error (.external 5)
      | .ok _ => .error (.external 6)
      | .error e => .error e
    | _ => .error (.external 6)

/-- A serialized point of schema 5. -/
def sample_serpoint : SERIALIZED_POINT := ⟨5, [1, 2, 254, 7]⟩

/-- A serialized patch of schema 5 holding two points. -/
def sample_serpatch : SERIALIZED_PATCH := ⟨5, [1, 2, 254, 7, 0, 0, 16, 255]⟩

/-! ## Lemmas on machine integers -/

theorem to_uint32_lt (x : Int) : to_uint32 x < 4294967296 := by
  unfold to_uint32; omega

theorem to_uint32_to_int32 (x : Nat) : to_uint32 (to_int32 x) = x % 4294967296 := by
  unfold to_uint32 to_int32; split <;> omega

theorem pcid_from_typmod_uint32 (t : Int) :
    pcid_from_typmod (to_int32 (to_uint32 t)) = pcid_from_typmod t := by
  unfold pcid_from_typmod
  rw [to_uint32_to_int32]
  exact Nat.mod_eq_of_lt (to_uint32_lt t)

theorem pcid_consistent_ok_iff (p c : Nat) :
    pcid_consistent p c = .ok () ↔ (c = 0 ∨ p = c) := by
  unfold pcid_consistent
  split <;> simp_all
  omega

theorem head_cons_of_head? {l : List Char} {c : Char} (h : l.head? = some c) :
    ∃ rest, l = c :: rest := by
  cases l with
  | nil => simp at h
  | cons a rest => exact ⟨rest, by simp at h; rw [h]⟩

/-- Result of `pcpoint_in` on a string that starts with '0' and decodes to `pt`. -/
theorem pcpoint_in_of_decoded (cdc : Codec) (str : List Char) (typmod_arg : Option Int)
    (pt : PCPOINT) (h0 : str.head? = some '0')
    (hdec : cdc.pc_point_from_hexwkb str str.length = .ok pt) :
    (pcpoint_in cdc str typmod_arg).result =
      (match pcid_consistent pt.schema.pcid (column_pcid typmod_arg) with
       | .error e => .error e
       | .ok _ => .ok (some (cdc.pc_point_serialize pt))) := by
  obtain ⟨rest, rfl⟩ := head_cons_of_head? h0
  simp only [pcpoint_in, if_true, hdec, column_pcid]
  split <;> rfl

/-- Result of `pcpatch_in` on a string that starts with '0' and decodes to `patch`. -/
theorem pcpatch_in_of_decoded (cdc : Codec) (str : List Char) (typmod_arg : Option Int)
    (patch : PCPATCH) (h0 : str.head? = some '0')
    (hdec : cdc.pc_patch_from_hexwkb str str.length = .ok patch) :
    (pcpatch_in cdc str typmod_arg).result =
      (match pcid_consistent patch.schema.pcid (column_pcid typmod_arg) with
       | .error e => .error e
       | .ok _ => .ok (some (cdc.pc_patch_serialize patch))) := by
  obtain ⟨rest, rfl⟩ := head_cons_of_head? h0
  have hcol : (match typmod_arg with
      | some a => pcid_from_typmod (to_int32 (to_uint32 a))
      | none => 0) = column_pcid typmod_arg := by
    cases typmod_arg with
    | none => rfl
    | some a => simp [column_pcid, pcid_from_typmod_uint32]
  simp only [pcpatch_in, if_true, hdec, hcol]
  split <;> rfl

theorem pcid_consistent_error_of (p c : Nat) (h : c ≠ 0 ∧ p ≠ c) :
    pcid_consistent p c = .error (.pcid_mismatch p c) := by
  unfold pcid_consistent
  rw [if_pos h]

/-! ## Lemmas on the record loop -/

theorem from_record_loop_append (bnd : Binder) (schema : PCSCHEMA)
    (xs ys : List RecordField) (pt : PCPOINT) :
    from_record_loop bnd schema (xs ++ ys) pt =
      (match from_record_loop bnd schema xs pt with
       | .error e => .error e
       | .ok pt1 => from_record_loop bnd schema ys pt1) := by
  induction xs generalizing pt with
  | nil => rfl
  | cons a xs ih =>
    simp only [List.cons_append, from_record_loop]
    cases from_record_attr bnd schema a pt with
    | error e => rfl
    | ok pt1 => exact ih pt1

/-- An accepted field never raises. -/
theorem from_record_attr_accepted (bnd : Binder) (schema : PCSCHEMA) (attr : RecordField)
    (pt : PCPOINT) (h : field_accepted bnd schema attr = true) :
    ∃ pt1, from_record_attr bnd schema attr pt = .ok pt1 := by
  unfold field_accepted at h
  unfold from_record_attr
  cases hp : bnd.pcparse_attname attr.attname with
  | error e => simp [hp] at h
  | ok parsed =>
    simp only [hp] at h ⊢
    by_cases hf : parsed.func ≠ .PC_FUN_NONE
    · simp [hf]
    · simp only [hf, if_false] at h ⊢
      cases hd : bnd.pc_schema_get_dimension_by_name schema
          (parsed.attname.take parsed.nattname) with
      | none => simp [hd] at h
      | some dim =>
        simp only [hd, expected_oid, decide_eq_true_eq] at h ⊢
        simp [h]

/-- An accepted field whose value is null leaves the point as it is. -/
theorem from_record_attr_accepted_null (bnd : Binder) (schema : PCSCHEMA)
    (attr : RecordField) (pt : PCPOINT) (h : field_accepted bnd schema attr = true)
    (hnull : attr.value = none) :
    from_record_attr bnd schema attr pt = .ok pt := by
  unfold field_accepted at h
  unfold from_record_attr
  cases hp : bnd.pcparse_attname attr.attname with
  | error e => simp [hp] at h
  | ok parsed =>
    simp only [hp] at h ⊢
    by_cases hf : parsed.func ≠ .PC_FUN_NONE
    · simp [hf]
    · simp only [hf, if_false] at h ⊢
      cases hd : bnd.pc_schema_get_dimension_by_name schema
          (parsed.attname.take parsed.nattname) with
      | none => simp [hd] at h
      | some dim =>
        simp only [hd, expected_oid, decide_eq_true_eq] at h ⊢
        simp [h, hnull]

/-- A field with an aggregate marker leaves the point as it is. -/
theorem from_record_attr_skipped (bnd : Binder) (schema : PCSCHEMA) (attr : RecordField)
    (pt : PCPOINT) (parsed : parsed_attname)
    (hp : bnd.pcparse_attname attr.attname = .ok parsed)
    (hf : parsed.func ≠ .PC_FUN_NONE) :
    from_record_attr bnd schema attr pt = .ok pt := by
  unfold from_record_attr
  simp [hp, hf]

theorem from_record_loop_accepted (bnd : Binder) (schema : PCSCHEMA)
    (l : List RecordField) (pt : PCPOINT)
    (h : ∀ a ∈ l, field_accepted bnd schema a = true) :
    ∃ pt1, from_record_loop bnd schema l pt = .ok pt1 := by
  induction l generalizing pt with
  | nil => exact ⟨pt, rfl⟩
  | cons a l ih =>
    obtain ⟨pt1, h1⟩ := from_record_attr_accepted bnd schema a pt (h a (by simp))
    simp only [from_record_loop, h1]
    exact ih pt1 (fun b hb => h b (by simp [hb]))

theorem from_record_loop_accepted_null (bnd : Binder) (schema : PCSCHEMA)
    (l : List RecordField) (pt : PCPOINT)
    (h : ∀ a ∈ l, a.value = none ∧ field_accepted bnd schema a = true) :
    from_record_loop bnd schema l pt = .ok pt := by
  induction l with
  | nil => rfl
  | cons a l ih =>
    have h1 := from_record_attr_accepted_null bnd schema a pt (h a (by simp)).2 (h a (by simp)).1
    simp only [from_record_loop, h1]
    exact ih (fun b hb => h b (by simp [hb]))

/-- A field that raises at every point makes the loop raise, wherever it stands. -/
theorem from_record_loop_fails (bnd : Binder) (schema : PCSCHEMA)
    (xs ys : List RecordField) (attr : RecordField)
    (h : ∀ pt, ∃ e, from_record_attr bnd schema attr pt = .error e) (pt : PCPOINT) :
    ∃ e, from_record_loop bnd schema (xs ++ attr :: ys) pt = .error e := by
  rw [from_record_loop_append]
  cases from_record_loop bnd schema xs pt with
  | error e => exact ⟨e, rfl⟩
  | ok pt1 =>
    obtain ⟨e, he⟩ := h pt1
    exact ⟨e, by simp [from_record_loop, he]⟩

/-- A field that raises `e` at every point, visited after accepted fields only, makes the
loop raise `e`. -/
theorem from_record_loop_first_failure (bnd : Binder) (schema : PCSCHEMA)
    (xs ys : List RecordField) (attr : RecordField) (e : PgError)
    (h : ∀ pt, from_record_attr bnd schema attr pt = .error e)
    (hxs : ∀ a ∈ xs, field_accepted bnd schema a = true) (pt : PCPOINT) :
    from_record_loop bnd schema (xs ++ attr :: ys) pt = .error e := by
  rw [from_record_loop_append]
  obtain ⟨pt1, h1⟩ := from_record_loop_accepted bnd schema xs pt hxs
  simp [h1, from_record_loop, h]

/-- A field that leaves every point as it is can be removed from the visiting order. -/
theorem from_record_loop_remove (bnd : Binder) (schema : PCSCHEMA)
    (xs ys : List RecordField) (attr : RecordField)
    (h : ∀ pt, from_record_attr bnd schema attr pt = .ok pt) (pt : PCPOINT) :
    from_record_loop bnd schema (xs ++ attr :: ys) pt
      = from_record_loop bnd schema (xs ++ ys) pt := by
  rw [from_record_loop_append, from_record_loop_append]
  cases from_record_loop bnd schema xs pt with
  | error e => rfl
  | ok pt1 => simp [from_record_loop, h]

theorem reverse_insert (pre post : List RecordField) (attr : RecordField) :
    (pre ++ attr :: post).reverse = post.reverse ++ attr :: pre.reverse := by
  simp

/-- A resolved field with an unexpected declared type raises the incorrect-oid error. -/
theorem from_record_attr_mismatch (bnd : Binder) (schema : PCSCHEMA) (attr : RecordField)
    (parsed : parsed_attname) (dim : PCDIMENSION)
    (hparse : bnd.pcparse_attname attr.attname = .ok parsed)
    (hfun : parsed.func = .PC_FUN_NONE)
    (hdim : bnd.pc_schema_get_dimension_by_name schema
      (parsed.attname.take parsed.nattname) = some dim)
    (hoid : expected_oid bnd parsed dim ≠ attr.atttypid) (pt : PCPOINT) :
    from_record_attr bnd schema attr pt = .error (.incorrect_oid
      (parsed.attname.take parsed.nattname) attr.attname (expected_oid bnd parsed dim)
      attr.atttypid) := by
  unfold from_record_attr
  unfold expected_oid at hoid ⊢
  simp [hparse, hfun, hdim, hoid]

/-- A field that is not skipped and names no dimension raises the not-found error. -/
theorem from_record_attr_unknown (bnd : Binder) (schema : PCSCHEMA) (attr : RecordField)
    (parsed : parsed_attname)
    (hparse : bnd.pcparse_attname attr.attname = .ok parsed)
    (hfun : parsed.func = .PC_FUN_NONE)
    (hdim : bnd.pc_schema_get_dimension_by_name schema
      (parsed.attname.take parsed.nattname) = none) (pt : PCPOINT) :
    from_record_attr bnd schema attr pt = .error (.dimension_not_found
      (parsed.attname.take parsed.nattname) attr.attname) := by
  unfold from_record_attr
  simp [hparse, hfun, hdim]

/-! ## Lemmas on decimal text -/

theorem digitChar_isdigit : ∀ k, k < 10 →
    isdigit (Nat.digitChar k) = true ∧ (Nat.digitChar k).toNat - 48 = k := by
  decide

theorem toDigitsCore_all_digits (f n : Nat) (acc : List Char)
    (hacc : ∀ c ∈ acc, isdigit c = true) :
    ∀ c ∈ Nat.toDigitsCore 10 f n acc, isdigit c = true := by
  induction f generalizing n acc with
  | zero => simpa [Nat.toDigitsCore] using hacc
  | succ f ih =>
    have hd := (digitChar_isdigit (n % 10) (Nat.mod_lt _ (by decide))).1
    have hacc2 : ∀ c ∈ Nat.digitChar (n % 10) :: acc, isdigit c = true := by
      intro c hc
      rcases List.mem_cons.mp hc with h | h
      · rw [h]; exact hd
      · exact hacc c h
    simp only [Nat.toDigitsCore]
    split
    · exact hacc2
    · exact ih _ _ hacc2

theorem toDigitsCore_ne_nil (f n : Nat) (acc : List Char) :
    Nat.toDigitsCore 10 (f + 1) n acc ≠ [] := by
  induction f generalizing n acc with
  | zero => simp [Nat.toDigitsCore]
  | succ f ih =>
    simp only [Nat.toDigitsCore]
    split
    · simp
    · exact ih _ _

theorem toDigitsCore_value (f n : Nat) (acc : List Char) (hf : n < f) :
    List.foldl (fun acc c => acc * 10 + (c.toNat - 48)) 0 (Nat.toDigitsCore 10 f n acc)
      = List.foldl (fun acc c => acc * 10 + (c.toNat - 48)) n acc := by
  induction f generalizing n acc with
  | zero => omega
  | succ f ih =>
    have hd := (digitChar_isdigit (n % 10) (Nat.mod_lt _ (by decide))).2
    simp only [Nat.toDigitsCore]
    split
    · rename_i h0
      simp only [List.foldl_cons, hd]
      congr 1
      omega
    · rename_i h0
      rw [ih (n / 10) _ (by omega)]
      simp only [List.foldl_cons, hd]
      congr 1
      omega

theorem decimal_ne_nil (n : Nat) : decimal n ≠ [] :=
  toDigitsCore_ne_nil n n []

theorem decimal_all_digits (n : Nat) : ∀ c ∈ decimal n, isdigit c = true :=
  toDigitsCore_all_digits (n + 1) n [] (by simp)

theorem decimal_value (n : Nat) : digits_value (decimal n) = n := by
  unfold digits_value decimal Nat.toDigits
  rw [toDigitsCore_value (n + 1) n [] (by omega)]
  rfl

theorem decimal_length_le (n : Nat) (h : n < 4294967296) : (decimal n).length ≤ 10 :=
  Nat.toDigitsCore_length 10 (by decide) (n + 1) n 10 (by omega) (by decide)

theorem isdigit_not_isspace (c : Char) (h : isdigit c = true) : isspace c = false := by
  unfold isdigit at h
  unfold isspace
  simp only [decide_eq_true_eq, decide_eq_false_iff_not] at h ⊢
  omega

theorem isdigit_not_sign (c : Char) (h : isdigit c = true) : c ≠ '-' ∧ c ≠ '+' := by
  constructor <;> (intro hc; rw [hc] at h; revert h; decide)

/-- The host parser reads the decimal text of a number below 2^31 back as that number. -/
theorem pg_atoi_decimal (n : Nat) (h : n < 2147483648) : pg_atoi (decimal n) = .ok (n : Int) := by
  have hne := decimal_ne_nil n
  have hall := decimal_all_digits n
  have hval := decimal_value n
  generalize decimal n = ds at hne hall hval
  cases ds with
  | nil => exact absurd rfl hne
  | cons c rest =>
    have hc : isdigit c = true := hall c (by simp)
    have hsp := isdigit_not_isspace c hc
    have hsg := isdigit_not_sign c hc
    have htw : List.takeWhile isdigit (c :: rest) = c :: rest :=
      List.takeWhile_eq_self_iff.mpr hall
    have hdw : List.dropWhile isdigit (c :: rest) = [] :=
      List.dropWhile_eq_nil_iff.mpr hall
    have ht : List.dropWhile isspace (c :: rest) = c :: rest := by
      simp [List.dropWhile_cons, hsp]
    have h1 : ¬ (c = '-') := hsg.1
    have h2 : ¬ (c = '+') := hsg.2
    unfold pg_atoi
    simp only [ht, List.head?_cons, Option.some.injEq, h1, h2, or_self, if_false, htw, hdw,
      hval]
    simp
    omega

/-! ## Claims -/

/-- C1: for every object pcid p and column pcid c, `pcid_consistent p c` raises the
schema-conflict error exactly when c is nonzero and p differs from c, and succeeds otherwise;
it succeeds for (5, 0) and (5, 5) and fails for (5, 7). -/
theorem C1_pcid_consistent_iff (p c : Nat) :
    (pcid_consistent p c = .error (.pcid_mismatch p c) ↔ (c ≠ 0 ∧ p ≠ c)) ∧
    ((∃ e, pcid_consistent p c = .error e) ↔ (c ≠ 0 ∧ p ≠ c)) ∧
    (pcid_consistent p c = .ok () ↔ ¬ (c ≠ 0 ∧ p ≠ c)) ∧
    pcid_consistent 5 0 = .ok () ∧
    pcid_consistent 5 5 = .ok () ∧
    pcid_consistent 5 7 = .error (.pcid_mismatch 5 7) := by
  refine ⟨?_, ?_, ?_, by decide, by decide, by decide⟩
  · unfold pcid_consistent; split <;> simp_all
  · unfold pcid_consistent; split <;> simp_all
  · unfold pcid_consistent; split <;> simp_all

/-- C2 (as stated, refuted): at an unconstrained column (typmod 0, column pcid 0) the
consistency check accepts a value of pcid 5, but typmod enforcement rejects it, for points
and for patches. -/
theorem C2_enforce_rejects_unconstrained_column :
    pcid_consistent 5 (pcid_from_typmod 0) = .ok () ∧
    pcpoint_enforce_typmod sample_serpoint 0 = .error (.point_not_consistent 0 5) ∧
    pcpatch_enforce_typmod sample_serpatch 0 = .error (.patch_not_consistent 0 5) := by
  decide

/-- C2 (amended): typmod enforcement returns the value unchanged exactly when the column pcid
decoded from the typmod equals the pcid of the value, and raises the not-consistent error
otherwise; when the column pcid is nonzero this is exactly when the consistency check
succeeds. -/
theorem C2_enforce_typmod_iff_equal (pt : SERIALIZED_POINT) (pa : SERIALIZED_PATCH)
    (typmod : Int) :
    (pcpoint_enforce_typmod pt typmod = .ok pt ↔ pcid_from_typmod typmod = pt.pcid) ∧
    (pcid_from_typmod typmod ≠ pt.pcid ↔ pcpoint_enforce_typmod pt typmod
        = .error (.point_not_consistent (pcid_from_typmod typmod) pt.pcid)) ∧
    (pcpatch_enforce_typmod pa typmod = .ok pa ↔ pcid_from_typmod typmod = pa.pcid) ∧
    (pcid_from_typmod typmod ≠ pa.pcid ↔ pcpatch_enforce_typmod pa typmod
        = .error (.patch_not_consistent (pcid_from_typmod typmod) pa.pcid)) ∧
    (pcid_from_typmod typmod ≠ 0 →
      ((pcpoint_enforce_typmod pt typmod = .ok pt ↔
          pcid_consistent pt.pcid (pcid_from_typmod typmod) = .ok ()) ∧
       (pcpatch_enforce_typmod pa typmod = .ok pa ↔
          pcid_consistent pa.pcid (pcid_from_typmod typmod) = .ok ()))) := by
  have hp : pcpoint_enforce_typmod pt typmod = .ok pt ↔ pcid_from_typmod typmod = pt.pcid := by
    unfold pcpoint_enforce_typmod
    by_cases h : pcid_from_typmod typmod = pt.pcid <;> simp [h]
  have ha : pcpatch_enforce_typmod pa typmod = .ok pa ↔ pcid_from_typmod typmod = pa.pcid := by
    unfold pcpatch_enforce_typmod
    simp only [pcid_from_typmod_uint32]
    by_cases h : pcid_from_typmod typmod = pa.pcid <;> simp [h]
  refine ⟨hp, ?_, ha, ?_, ?_⟩
  · unfold pcpoint_enforce_typmod
    by_cases h : pcid_from_typmod typmod = pt.pcid <;> simp [h]
  · unfold pcpatch_enforce_typmod
    simp only [pcid_from_typmod_uint32]
    by_cases h : pcid_from_typmod typmod = pa.pcid <;> simp [h]
  · intro hc
    rw [hp, ha, pcid_consistent_ok_iff, pcid_consistent_ok_iff]
    constructor <;> constructor <;> intro h
    · exact Or.inr h.symm
    · exact (h.resolve_left hc).symm
    · exact Or.inr h.symm
    · exact (h.resolve_left hc).symm

/-- C3: for every codec, input string and typmod, `pcpoint_in` and `pcpatch_in` raise the
empty-string error on the empty string and the text-format error on a non-empty string whose
first character is not '0' (such as "XYZ"), in both cases without calling any collaborator
(no hex decoding, no schema resolution); the hex decoder is called exactly when the first
character is '0', and then with the whole string and its length. -/
theorem C3_input_format_errors (cdc : Codec) (str : List Char) (typmod_arg : Option Int) :
    (str = [] →
      pcpoint_in cdc str typmod_arg = ⟨[], .error .pcpoint_empty_string⟩ ∧
      pcpatch_in cdc str typmod_arg = ⟨[], .error .pcpatch_empty_string⟩) ∧
    ((str ≠ [] ∧ str.head? ≠ some '0') →
      pcpoint_in cdc str typmod_arg = ⟨[], .error .text_format_not_implemented⟩ ∧
      pcpatch_in cdc str typmod_arg = ⟨[], .error .text_format_not_implemented⟩) ∧
    (pcpoint_in cdc ['X', 'Y', 'Z'] typmod_arg = ⟨[], .error .text_format_not_implemented⟩ ∧
      pcpatch_in cdc ['X', 'Y', 'Z'] typmod_arg = ⟨[], .error .text_format_not_implemented⟩) ∧
    (Call.pc_point_from_hexwkb str str.length ∈ (pcpoint_in cdc str typmod_arg).calls ↔
      str.head? = some '0') ∧
    (Call.pc_patch_from_hexwkb str str.length ∈ (pcpatch_in cdc str typmod_arg).calls ↔
      str.head? = some '0') ∧
    ((∃ c ∈ (pcpoint_in cdc str typmod_arg).calls, c.decodes_or_resolves = true) ↔
      str.head? = some '0') ∧
    ((∃ c ∈ (pcpatch_in cdc str typmod_arg).calls, c.decodes_or_resolves = true) ↔
      str.head? = some '0') := by
  refine ⟨?_, ?_, ?_, ?_, ?_, ?_, ?_⟩
  · rintro rfl
    exact ⟨rfl, rfl⟩
  · rintro ⟨hne, hhd⟩
    cases str with
    | nil => exact absurd rfl hne
    | cons c rest =>
      have hc : c ≠ '0' := by intro h; apply hhd; simp [h]
      simp [pcpoint_in, pcpatch_in, hc]
  · simp [pcpoint_in, pcpatch_in]
  · cases str with
    | nil => simp [pcpoint_in]
    | cons c rest =>
      by_cases hc : c = '0'
      · simp only [pcpoint_in, hc, if_true]
        split
        · simp
        · split <;> simp
      · simp [pcpoint_in, hc]
  · cases str with
    | nil => simp [pcpatch_in]
    | cons c rest =>
      by_cases hc : c = '0'
      · simp only [pcpatch_in, hc, if_true]
        split
        · simp
        · split <;> simp
      · simp [pcpatch_in, hc]
  · cases str with
    | nil => simp [pcpoint_in]
    | cons c rest =>
      by_cases hc : c = '0'
      · simp only [pcpoint_in, hc, if_true]
        split
        · simp [Call.decodes_or_resolves]
        · split <;> simp [Call.decodes_or_resolves]
      · simp [pcpoint_in, hc]
  · cases str with
    | nil => simp [pcpatch_in]
    | cons c rest =>
      by_cases hc : c = '0'
      · simp only [pcpatch_in, hc, if_true]
        split
        · simp [Call.decodes_or_resolves]
        · split <;> simp [Call.decodes_or_resolves]
      · simp [pcpatch_in, hc]

/-- C4 (as stated, refuted): a one-dimensional, null-free float8 array of three elements
whose lower bound is 2, against the three-dimension schema 5, raises the dimension-mismatch
error although the number of elements equals the number of dimensions. -/
theorem C4_lower_bound_rejected :
    sample_codec.pc_schema_from_pcid (to_uint32 5) = some sample_schema ∧
    sample_schema.ndims = 3 ∧
    pcpoint_from_double_array sample_codec 5
      ⟨FLOAT8OID, 1, false, [3], [2], [⟨258⟩, ⟨3⟩, ⟨4⟩]⟩ = .error (.array_dims_mismatch 5) := by
  decide

/-- C4 (amended): for a resolvable schema and a one-dimensional, null-free float8 array of
`n` elements with lower bound `lb`, `pcpoint_from_double_array` raises the dimension-mismatch
error exactly when `n` differs from the schema's number of dimensions or `lb` exceeds 1;
otherwise it returns the serialization of the point that `pc_point_from_double_array` builds
from the schema, the values and `n`. -/
theorem C4_double_array_dims (cdc : Codec) (pcid_arg : Int) (arr : ArrayType float8)
    (schema : PCSCHEMA) (n : Nat) (lb : Int)
    (hres : cdc.pc_schema_from_pcid (to_uint32 pcid_arg) = some schema)
    (helem : arr.elemtype = FLOAT8OID) (hndim : arr.ndim = 1) (hnull : arr.hasnull = false)
    (hdims : arr.dims = [(n : Int)]) (hn : n < 4294967296) (hlb : arr.lbound = [lb]) :
    (pcpoint_from_double_array cdc pcid_arg arr
        = .error (.array_dims_mismatch (to_uint32 pcid_arg)) ↔ (n ≠ schema.ndims ∨ lb > 1)) ∧
    ((∃ e, pcpoint_from_double_array cdc pcid_arg arr = .error e)
        ↔ (n ≠ schema.ndims ∨ lb > 1)) ∧
    (¬ (n ≠ schema.ndims ∨ lb > 1) →
      pcpoint_from_double_array cdc pcid_arg arr
        = .ok (cdc.pc_point_serialize (cdc.pc_point_from_double_array schema arr.data n))) := by
  have hu : to_uint32 (n : Int) = n := by unfold to_uint32; omega
  by_cases hc : n ≠ schema.ndims ∨ lb > 1
  · have : pcpoint_from_double_array cdc pcid_arg arr
        = .error (.array_dims_mismatch (to_uint32 pcid_arg)) := by
      simp only [pcpoint_from_double_array, hres, helem, hndim, hnull, hdims, hlb,
        List.getD_cons_zero, hu]
      simp [hc]
    simp [this, hc]
  · have : pcpoint_from_double_array cdc pcid_arg arr
        = .ok (cdc.pc_point_serialize (cdc.pc_point_from_double_array schema arr.data n)) := by
      simp only [pcpoint_from_double_array, hres, helem, hndim, hnull, hdims, hlb,
        List.getD_cons_zero, hu]
      simp [hc]
    simp [this, hc]

/-- C4 at the sample codec: two values against the three-dimension schema 5 (lower bound 1). -/
theorem C4_double_array_dims_witness :
    (pcpoint_from_double_array sample_codec 5 ⟨FLOAT8OID, 1, false, [2], [1], [⟨1⟩, ⟨2⟩]⟩
        = .error (.array_dims_mismatch (to_uint32 5)) ↔ (2 ≠ sample_schema.ndims ∨ (1 : Int) > 1)) ∧
    ((∃ e, pcpoint_from_double_array sample_codec 5
          ⟨FLOAT8OID, 1, false, [2], [1], [⟨1⟩, ⟨2⟩]⟩ = .error e)
        ↔ (2 ≠ sample_schema.ndims ∨ (1 : Int) > 1)) ∧
    (¬ (2 ≠ sample_schema.ndims ∨ (1 : Int) > 1) →
      pcpoint_from_double_array sample_codec 5 ⟨FLOAT8OID, 1, false, [2], [1], [⟨1⟩, ⟨2⟩]⟩
        = .ok (sample_codec.pc_point_serialize
            (sample_codec.pc_point_from_double_array sample_schema [⟨1⟩, ⟨2⟩] 2))) :=
  C4_double_array_dims sample_codec 5 ⟨FLOAT8OID, 1, false, [2], [1], [⟨1⟩, ⟨2⟩]⟩
    sample_schema 2 1 (by decide) (by decide) (by decide) (by decide) (by decide)
    (by decide) (by decide)

/-- C5 (as stated, refuted): in the record (x int4, bogus float8) against schema 5, the field
x resolves to a dimension and declares int4 instead of the expected float8, yet the error
raised is the dimension-not-found error of the field bogus, which is visited first. -/
theorem C5_other_error_first :
    sample_binder.pcparse_attname ['x'] = .ok ⟨['x'], 1, false, .PC_FUN_NONE⟩ ∧
    sample_binder.pc_schema_get_dimension_by_name sample_schema ['x'] = some ⟨['x'], 3, 0, 2⟩ ∧
    expected_oid sample_binder ⟨['x'], 1, false, .PC_FUN_NONE⟩ ⟨['x'], 3, 0, 2⟩ ≠ INT4OID ∧
    pcpoint_from_record sample_codec sample_binder 5
      [⟨['x'], INT4OID, none⟩, ⟨['b', 'o', 'g', 'u', 's'], FLOAT8OID, none⟩]
      = .error (.dimension_not_found ['b', 'o', 'g', 'u', 's'] ['b', 'o', 'g', 'u', 's']) := by
  decide

/-- C5 (amended): if a field of the record parses without an aggregate marker, resolves to a
dimension of the schema and declares a type other than the expected one (null value or not),
then `pcpoint_from_record` raises an error and returns no point; the error is the
incorrect-oid error of that field whenever all the fields after it in the record (they are
visited before it) are accepted. -/
theorem C5_type_mismatch_fails (cdc : Codec) (bnd : Binder) (pcid_arg : Int)
    (schema : PCSCHEMA) (pre post : List RecordField) (attr : RecordField)
    (parsed : parsed_attname) (dim : PCDIMENSION)
    (hres : cdc.pc_schema_from_pcid (to_uint32 pcid_arg) = some schema)
    (hparse : bnd.pcparse_attname attr.attname = .ok parsed)
    (hfun : parsed.func = .PC_FUN_NONE)
    (hdim : bnd.pc_schema_get_dimension_by_name schema
      (parsed.attname.take parsed.nattname) = some dim)
    (hoid : expected_oid bnd parsed dim ≠ attr.atttypid) :
    (∃ e, pcpoint_from_record cdc bnd pcid_arg (pre ++ attr :: post) = .error e) ∧
    ((∀ a ∈ post, field_accepted bnd schema a = true) →
      pcpoint_from_record cdc bnd pcid_arg (pre ++ attr :: post)
        = .error (.incorrect_oid (parsed.attname.take parsed.nattname) attr.attname
            (expected_oid bnd parsed dim) attr.atttypid)) := by
  have hat := from_record_attr_mismatch bnd schema attr parsed dim hparse hfun hdim hoid
  constructor
  · obtain ⟨e, he⟩ := from_record_loop_fails bnd schema post.reverse pre.reverse attr
      (fun pt => ⟨_, hat pt⟩) (bnd.pc_point_make schema)
    exact ⟨e, by simp only [pcpoint_from_record, hres, reverse_insert, he]⟩
  · intro hpost
    have he := from_record_loop_first_failure bnd schema post.reverse pre.reverse attr _ hat
      (fun a ha => hpost a (List.mem_reverse.mp ha)) (bnd.pc_point_make schema)
    simp only [pcpoint_from_record, hres, reverse_insert, he]

/-- C5 at the sample binder: the record (y float8, x int4, z(min) int4), all values null. -/
theorem C5_type_mismatch_fails_witness :
    (∃ e, pcpoint_from_record sample_codec sample_binder 5
      ([⟨['y'], FLOAT8OID, none⟩] ++ ⟨['x'], INT4OID, none⟩
        :: [⟨['z', '(', 'm', 'i', 'n', ')'], INT4OID, none⟩]) = .error e) ∧
    ((∀ a ∈ [(⟨['z', '(', 'm', 'i', 'n', ')'], INT4OID, none⟩ : RecordField)],
        field_accepted sample_binder sample_schema a = true) →
      pcpoint_from_record sample_codec sample_binder 5
        ([⟨['y'], FLOAT8OID, none⟩] ++ ⟨['x'], INT4OID, none⟩
          :: [⟨['z', '(', 'm', 'i', 'n', ')'], INT4OID, none⟩])
        = .error (.incorrect_oid
            ((⟨['x'], 1, false, .PC_FUN_NONE⟩ : parsed_attname).attname.take 1) ['x']
            (expected_oid sample_binder ⟨['x'], 1, false, .PC_FUN_NONE⟩ ⟨['x'], 3, 0, 2⟩)
            INT4OID)) :=
  C5_type_mismatch_fails sample_codec sample_binder 5 sample_schema
    [⟨['y'], FLOAT8OID, none⟩] [⟨['z', '(', 'm', 'i', 'n', ')'], INT4OID, none⟩]
    ⟨['x'], INT4OID, none⟩ ⟨['x'], 1, false, .PC_FUN_NONE⟩ ⟨['x'], 3, 0, 2⟩
    (by decide) (by decide) (by decide) (by decide) (by decide)

/-- C6: for a resolvable schema, a field whose value is null and which is accepted (its name
parses and either carries an aggregate marker or names a dimension of the schema with the
expected declared type) neither fails nor writes: `pcpoint_from_record` returns for the record
what it returns for the record without that field; and a record of accepted fields that are
all null yields the serialization of the point made by `pc_point_make`. -/
theorem C6_null_field_is_neutral (cdc : Codec) (bnd : Binder) (pcid_arg : Int)
    (schema : PCSCHEMA) (pre post : List RecordField) (attr : RecordField)
    (hres : cdc.pc_schema_from_pcid (to_uint32 pcid_arg) = some schema)
    (hnull : attr.value = none)
    (hacc : field_accepted bnd schema attr = true) :
    pcpoint_from_record cdc bnd pcid_arg (pre ++ attr :: post)
      = pcpoint_from_record cdc bnd pcid_arg (pre ++ post) ∧
    (∀ tuple : List RecordField,
      (∀ a ∈ tuple, a.value = none ∧ field_accepted bnd schema a = true) →
      pcpoint_from_record cdc bnd pcid_arg tuple
        = .ok (cdc.pc_point_serialize (bnd.pc_point_make schema))) := by
  constructor
  · have h := from_record_loop_remove bnd schema post.reverse pre.reverse attr
      (fun pt => from_record_attr_accepted_null bnd schema attr pt hacc hnull)
      (bnd.pc_point_make schema)
    simp only [pcpoint_from_record, hres]
    rw [reverse_insert, h, List.reverse_append]
  · intro tuple htuple
    have h := from_record_loop_accepted_null bnd schema tuple.reverse (bnd.pc_point_make schema)
      (fun a ha => htuple a (List.mem_reverse.mp ha))
    simp only [pcpoint_from_record, hres, h]

/-- C6 at the sample binder: a null field y between a written field x(raw) and a written
field z; without it the same point comes out. -/
theorem C6_null_field_is_neutral_witness :
    pcpoint_from_record sample_codec sample_binder 5
      ([⟨['x', '(', 'r', 'a', 'w', ')'], 21, some [7, 9, 0, 0, 0, 0, 0, 0]⟩]
        ++ ⟨['y'], FLOAT8OID, none⟩ :: [⟨['z'], FLOAT8OID, some [3, 0, 0, 0, 0, 0, 0, 0]⟩])
      = pcpoint_from_record sample_codec sample_binder 5
      ([⟨['x', '(', 'r', 'a', 'w', ')'], 21, some [7, 9, 0, 0, 0, 0, 0, 0]⟩]
        ++ [⟨['z'], FLOAT8OID, some [3, 0, 0, 0, 0, 0, 0, 0]⟩]) ∧
    (∀ tuple : List RecordField,
      (∀ a ∈ tuple, a.value = none ∧ field_accepted sample_binder sample_schema a = true) →
      pcpoint_from_record sample_codec sample_binder 5 tuple
        = .ok (sample_codec.pc_point_serialize (sample_binder.pc_point_make sample_schema))) :=
  C6_null_field_is_neutral sample_codec sample_binder 5 sample_schema
    [⟨['x', '(', 'r', 'a', 'w', ')'], 21, some [7, 9, 0, 0, 0, 0, 0, 0]⟩]
    [⟨['z'], FLOAT8OID, some [3, 0, 0, 0, 0, 0, 0, 0]⟩] ⟨['y'], FLOAT8OID, none⟩
    (by decide) (by decide) (by decide)

/-- C7 (as stated, refuted): in the record (bogus float8, x int4) against schema 5, the field
bogus is not skipped and names no dimension of the schema, yet the error raised is the
incorrect-oid error of the field x, which is visited first. -/
theorem C7_other_error_first :
    sample_binder.pcparse_attname ['b', 'o', 'g', 'u', 's']
      = .ok ⟨['b', 'o', 'g', 'u', 's'], 5, false, .PC_FUN_NONE⟩ ∧
    sample_binder.pc_schema_get_dimension_by_name sample_schema ['b', 'o', 'g', 'u', 's']
      = none ∧
    pcpoint_from_record sample_codec sample_binder 5
      [⟨['b', 'o', 'g', 'u', 's'], FLOAT8OID, none⟩, ⟨['x'], INT4OID, none⟩]
      = .error (.incorrect_oid ['x'] ['x'] FLOAT8OID INT4OID) := by
  decide

/-- C7 (amended): if a field of the record parses without an aggregate marker and names a
dimension absent from the schema, then `pcpoint_from_record` raises an error and returns no
point; the error is the dimension-not-found error of that field whenever all the fields after
it in the record (they are visited before it) are accepted. A field whose parsed name carries
an aggregate marker is skipped: the record with that field and the record without it give the
same result. -/
theorem C7_unknown_dimension_fails (cdc : Codec) (bnd : Binder) (pcid_arg : Int)
    (schema : PCSCHEMA) (pre post : List RecordField) (attr : RecordField)
    (parsed : parsed_attname)
    (hres : cdc.pc_schema_from_pcid (to_uint32 pcid_arg) = some schema)
    (hparse : bnd.pcparse_attname attr.attname = .ok parsed)
    (hfun : parsed.func = .PC_FUN_NONE)
    (hdim : bnd.pc_schema_get_dimension_by_name schema
      (parsed.attname.take parsed.nattname) = none) :
    (∃ e, pcpoint_from_record cdc bnd pcid_arg (pre ++ attr :: post) = .error e) ∧
    ((∀ a ∈ post, field_accepted bnd schema a = true) →
      pcpoint_from_record cdc bnd pcid_arg (pre ++ attr :: post)
        = .error (.dimension_not_found (parsed.attname.take parsed.nattname) attr.attname)) ∧
    (∀ (pre2 post2 : List RecordField) (attr2 : RecordField) (parsed2 : parsed_attname),
      bnd.pcparse_attname attr2.attname = .ok parsed2 →
      parsed2.func ≠ .PC_FUN_NONE →
      pcpoint_from_record cdc bnd pcid_arg (pre2 ++ attr2 :: post2)
        = pcpoint_from_record cdc bnd pcid_arg (pre2 ++ post2)) := by
  have hat := from_record_attr_unknown bnd schema attr parsed hparse hfun hdim
  refine ⟨?_, ?_, ?_⟩
  · obtain ⟨e, he⟩ := from_record_loop_fails bnd schema post.reverse pre.reverse attr
      (fun pt => ⟨_, hat pt⟩) (bnd.pc_point_make schema)
    exact ⟨e, by simp only [pcpoint_from_record, hres, reverse_insert, he]⟩
  · intro hpost
    have he := from_record_loop_first_failure bnd schema post.reverse pre.reverse attr _ hat
      (fun a ha => hpost a (List.mem_reverse.mp ha)) (bnd.pc_point_make schema)
    simp only [pcpoint_from_record, hres, reverse_insert, he]
  · intro pre2 post2 attr2 parsed2 hp2 hf2
    have h := from_record_loop_remove bnd schema post2.reverse pre2.reverse attr2
      (fun pt => from_record_attr_skipped bnd schema attr2 pt parsed2 hp2 hf2)
      (bnd.pc_point_make schema)
    simp only [pcpoint_from_record, hres]
    rw [reverse_insert, h, List.reverse_append]

/-- C7 at the sample binder: the record (x float8, bogus float8, y(avg) int4). -/
theorem C7_unknown_dimension_fails_witness :
    (∃ e, pcpoint_from_record sample_codec sample_binder 5
      ([⟨['x'], FLOAT8OID, none⟩] ++ ⟨['b', 'o', 'g', 'u', 's'], FLOAT8OID, none⟩
        :: [⟨['y', '(', 'a', 'v', 'g', ')'], INT4OID, none⟩]) = .error e) ∧
    ((∀ a ∈ [(⟨['y', '(', 'a', 'v', 'g', ')'], INT4OID, none⟩ : RecordField)],
        field_accepted sample_binder sample_schema a = true) →
      pcpoint_from_record sample_codec sample_binder 5
        ([⟨['x'], FLOAT8OID, none⟩] ++ ⟨['b', 'o', 'g', 'u', 's'], FLOAT8OID, none⟩
          :: [⟨['y', '(', 'a', 'v', 'g', ')'], INT4OID, none⟩])
        = .error (.dimension_not_found
            ((⟨['b', 'o', 'g', 'u', 's'], 5, false, .PC_FUN_NONE⟩ : parsed_attname).attname.take
              5)
            ['b', 'o', 'g', 'u', 's'])) ∧
    (∀ (pre2 post2 : List RecordField) (attr2 : RecordField) (parsed2 : parsed_attname),
      sample_binder.pcparse_attname attr2.attname = .ok parsed2 →
      parsed2.func ≠ .PC_FUN_NONE →
      pcpoint_from_record sample_codec sample_binder 5 (pre2 ++ attr2 :: post2)
        = pcpoint_from_record sample_codec sample_binder 5 (pre2 ++ post2)) :=
  C7_unknown_dimension_fails sample_codec sample_binder 5 sample_schema
    [⟨['x'], FLOAT8OID, none⟩] [⟨['y', '(', 'a', 'v', 'g', ')'], INT4OID, none⟩]
    ⟨['b', 'o', 'g', 'u', 's'], FLOAT8OID, none⟩ ⟨['b', 'o', 'g', 'u', 's'], 5, false, .PC_FUN_NONE⟩
    (by decide) (by decide) (by decide) (by decide)

/-- C8 (as stated, refuted): the schema id 2147483648 is an unsigned 32-bit value, but
`pc_typmod_in` produces no tag from its decimal text: `pg_atoi` raises out-of-range. -/
theorem C8_large_schema_id_rejected :
    (2147483648 : Nat) < 4294967296 ∧
    decimal 2147483648 = ['2', '1', '4', '7', '4', '8', '3', '6', '4', '8'] ∧
    pc_typmod_in (typmod_list [decimal 2147483648]) = .error .atoi_out_of_range := by
  decide

/-- C8 (amended): for every schema id s below 2^31, `pc_typmod_in` applied to the
single-element list holding the decimal text of s returns a tag that `pcid_from_typmod`
decodes back to s (and `pc_typmod_pcid` returns s, or NULL when s is 0); the tag 0 decodes
to 0; a list with more than one element is rejected. -/
theorem C8_typmod_round_trip (s : Nat) (hs : s < 2147483648) :
    (∃ tag, pc_typmod_in (typmod_list [decimal s]) = .ok tag ∧
      pcid_from_typmod tag = s ∧
      pc_typmod_pcid tag = (if s = 0 then none else some (s : Int))) ∧
    pcid_from_typmod 0 = 0 ∧
    (∀ elems : List (List Char), 1 < elems.length →
      pc_typmod_in (typmod_list elems) = .error .typmod_not_one_element) ∧
    (∀ arr : ArrayType (List Char), 1 < ArrayGetNItems arr.ndim arr.dims →
      ∃ e, pc_typmod_in arr = .error e) := by
  have hu : to_uint32 (s : Int) = s := by unfold to_uint32; omega
  have hi : to_int32 s = (s : Int) := by
    unfold to_int32
    rw [Nat.mod_eq_of_lt (by omega), if_pos hs]
  refine ⟨⟨(s : Int), ?_, ?_, ?_⟩, by decide, ?_, ?_⟩
  · simp [pc_typmod_in, typmod_list, ArrayGetNItems, pc_typmod_in_loop, pg_atoi_decimal s hs,
      hu, hi]
  · exact hu
  · unfold pc_typmod_pcid
    simp only [pcid_from_typmod, hu, hi]
  · intro elems hlen
    have : (1 : Int) < (elems.length : Int) := by omega
    simp [pc_typmod_in, typmod_list, ArrayGetNItems, this]
  · intro arr hn
    unfold pc_typmod_in
    split
    · exact ⟨_, rfl⟩
    · split
      · exact ⟨_, rfl⟩
      · split
        · exact ⟨_, rfl⟩
        · exact ⟨_, rfl⟩

/-- C8 at the schema id 5. -/
theorem C8_typmod_round_trip_witness :
    (∃ tag, pc_typmod_in (typmod_list [decimal 5]) = .ok tag ∧
      pcid_from_typmod tag = 5 ∧
      pc_typmod_pcid tag = (if 5 = 0 then none else some ((5 : Nat) : Int))) ∧
    pcid_from_typmod 0 = 0 ∧
    (∀ elems : List (List Char), 1 < elems.length →
      pc_typmod_in (typmod_list elems) = .error .typmod_not_one_element) ∧
    (∀ arr : ArrayType (List Char), 1 < ArrayGetNItems arr.ndim arr.dims →
      ∃ e, pc_typmod_in arr = .error e) :=
  C8_typmod_round_trip 5 (by decide)

/-- C9: for every typmod tag, `pc_typmod_out` returns the empty string when the decoded
schema id is 0, and otherwise exactly "(" followed by the unsigned decimal digits of the
decoded schema id followed by ")"; the text always fits the 64-byte buffer. -/
theorem C9_typmod_out_text (typmod : Int) :
    pc_typmod_out typmod = some
      (if pcid_from_typmod typmod = 0 then []
       else ['('] ++ decimal (pcid_from_typmod typmod) ++ [')']) ∧
    pc_typmod_out 0 = some [] ∧
    pc_typmod_out 5 = some ['(', '5', ')'] := by
  refine ⟨?_, by decide, by decide⟩
  unfold pc_typmod_out
  simp only [pcid_from_typmod_uint32]
  by_cases h0 : pcid_from_typmod typmod = 0
  · simp [h0]
  · have hlen := decimal_length_le (pcid_from_typmod typmod) (to_uint32_lt typmod)
    simp only [h0, if_false, sprintf_paren_u]
    rw [if_pos]
    simp only [List.length_append, List.length_singleton]
    omega

/-- C10: text round trip. Let a serialized point `s` have a pcid that resolves to a schema,
let it deserialize to `pt`, and let the codec satisfy, at `pt`: the hex text starts with '0',
`from_hexwkb` inverts `to_hexwkb`, `serialize` inverts `deserialize` and tags the wire form
with the pcid of the point's schema. Then `pcpoint_out s` returns a text `hex`, and
`pcpoint_in hex typmod` returns `s` when the column pcid is 0 or equals `s.pcid`, and raises
the pcid-mismatch error when the column pcid is nonzero and differs. The same holds for
`pcpatch_out` / `pcpatch_in`. -/
theorem C10_text_round_trip (cdc : Codec) (typmod_arg : Option Int)
    (s : SERIALIZED_POINT) (schema : PCSCHEMA) (pt : PCPOINT)
    (sp : SERIALIZED_PATCH) (pschema : PCSCHEMA) (patch : PCPATCH)
    (hres : cdc.pc_schema_from_pcid s.pcid = some schema)
    (hdes : cdc.pc_point_deserialize s (some schema) = .ok pt)
    (hzero : (cdc.pc_point_to_hexwkb pt).head? = some '0')
    (hhex : cdc.pc_point_from_hexwkb (cdc.pc_point_to_hexwkb pt)
      (cdc.pc_point_to_hexwkb pt).length = .ok pt)
    (hser : cdc.pc_point_serialize pt = s)
    (htag : (cdc.pc_point_serialize pt).pcid = pt.schema.pcid)
    (hres2 : cdc.pc_schema_from_pcid sp.pcid = some pschema)
    (hdes2 : cdc.pc_patch_deserialize sp (some pschema) = .ok patch)
    (hzero2 : (cdc.pc_patch_to_hexwkb patch).head? = some '0')
    (hhex2 : cdc.pc_patch_from_hexwkb (cdc.pc_patch_to_hexwkb patch)
      (cdc.pc_patch_to_hexwkb patch).length = .ok patch)
    (hser2 : cdc.pc_patch_serialize patch = sp)
    (htag2 : (cdc.pc_patch_serialize patch).pcid = patch.schema.pcid) :
    (∃ hex, (pcpoint_out cdc s).result = .ok hex ∧
      ((column_pcid typmod_arg = 0 ∨ column_pcid typmod_arg = s.pcid) →
        (pcpoint_in cdc hex typmod_arg).result = .ok (some s)) ∧
      ((column_pcid typmod_arg ≠ 0 ∧ column_pcid typmod_arg ≠ s.pcid) →
        (pcpoint_in cdc hex typmod_arg).result
          = .error (.pcid_mismatch s.pcid (column_pcid typmod_arg)))) ∧
    (∃ hex, (pcpatch_out cdc sp).result = .ok hex ∧
      ((column_pcid typmod_arg = 0 ∨ column_pcid typmod_arg = sp.pcid) →
        (pcpatch_in cdc hex typmod_arg).result = .ok (some sp)) ∧
      ((column_pcid typmod_arg ≠ 0 ∧ column_pcid typmod_arg ≠ sp.pcid) →
        (pcpatch_in cdc hex typmod_arg).result
          = .error (.pcid_mismatch sp.pcid (column_pcid typmod_arg)))) := by
  have hp : pt.schema.pcid = s.pcid := by rw [← htag, hser]
  have hp2 : patch.schema.pcid = sp.pcid := by rw [← htag2, hser2]
  constructor
  · refine ⟨cdc.pc_point_to_hexwkb pt, ?_, ?_, ?_⟩
    · simp [pcpoint_out, hres, hdes]
    · intro hc
      rw [pcpoint_in_of_decoded cdc _ typmod_arg pt hzero hhex, hp,
        (pcid_consistent_ok_iff s.pcid _).mpr (hc.imp id Eq.symm), hser]
    · intro hc
      rw [pcpoint_in_of_decoded cdc _ typmod_arg pt hzero hhex, hp,
        pcid_consistent_error_of s.pcid _ ⟨hc.1, fun h => hc.2 h.symm⟩]
  · refine ⟨cdc.pc_patch_to_hexwkb patch, ?_, ?_, ?_⟩
    · simp [pcpatch_out, hres2, hdes2]
    · intro hc
      rw [pcpatch_in_of_decoded cdc _ typmod_arg patch hzero2 hhex2, hp2,
        (pcid_consistent_ok_iff sp.pcid _).mpr (hc.imp id Eq.symm), hser2]
    · intro hc
      rw [pcpatch_in_of_decoded cdc _ typmod_arg patch hzero2 hhex2, hp2,
        pcid_consistent_error_of sp.pcid _ ⟨hc.1, fun h => hc.2 h.symm⟩]

/-- C10 at the sample codec, the sample point and patch (pcid 5) and a column of pcid 5. -/
theorem C10_text_round_trip_witness :
    (∃ hex, (pcpoint_out sample_codec sample_serpoint).result = .ok hex ∧
      ((column_pcid (some 5) = 0 ∨ column_pcid (some 5) = sample_serpoint.pcid) →
        (pcpoint_in sample_codec hex (some 5)).result = .ok (some sample_serpoint)) ∧
      ((column_pcid (some 5) ≠ 0 ∧ column_pcid (some 5) ≠ sample_serpoint.pcid) →
        (pcpoint_in sample_codec hex (some 5)).result
          = .error (.pcid_mismatch sample_serpoint.pcid (column_pcid (some 5))))) ∧
    (∃ hex, (pcpatch_out sample_codec sample_serpatch).result = .ok hex ∧
      ((column_pcid (some 5) = 0 ∨ column_pcid (some 5) = sample_serpatch.pcid) →
        (pcpatch_in sample_codec hex (some 5)).result = .ok (some sample_serpatch)) ∧
      ((column_pcid (some 5) ≠ 0 ∧ column_pcid (some 5) ≠ sample_serpatch.pcid) →
        (pcpatch_in sample_codec hex (some 5)).result
          = .error (.pcid_mismatch sample_serpatch.pcid (column_pcid (some 5))))) :=
  C10_text_round_trip sample_codec (some 5)
    sample_serpoint sample_schema ⟨sample_schema, [1, 2, 254, 7]⟩
    sample_serpatch sample_schema ⟨sample_schema, [[1, 2, 254, 7], [0, 0, 16, 255]]⟩
    (by decide) (by decide) (by decide) (by decide) (by decide) (by decide)
    (by decide) (by decide) (by decide) (by decide) (by decide) (by decide)

end PcInout
